import Mathlib

/-!
Shallow embedding of the Microsandbox greeting SDKs.

C and C++ strings are modelled as their character sequences (`List Char`,
assumed NUL-free, as C string contents are). The outcome of `malloc` in the
C variant is an explicit boolean parameter (`allocOk = false` models a NULL
return from `malloc`). Standard output is modelled as the list of lines a
call emits: each `printf("%s\n", m)` (resp. `std::cout << m << std::endl`)
contributes the single entry `m ++ ['\n']`.
-/

namespace CSdk

/-- The `prefix` local of `microsandbox_greet`: the literal `"Hello, "`. -/
def prefixStr : List Char := "Hello, ".data

/-- The `suffix` local of `microsandbox_greet`: the literal
`"! Welcome to Microsandbox!"`. -/
def suffixStr : List Char := "! Welcome to Microsandbox!".data

/-- C `strlen` on a NUL-free character sequence: its length. -/
def strlen (s : List Char) : Nat := s.length

/-- The `total_length` computation of `microsandbox_greet`:
`strlen(prefix) + strlen(name) + strlen(suffix) + 1` (the `+ 1` is for the
NUL terminator), the byte count passed to `malloc`. -/
def total_length (name : List Char) : Nat :=
  strlen prefixStr + strlen name + strlen suffixStr + 1

/-- The `sprintf(message, "%s%s%s", prefix, name, suffix)` construction:
concatenation of the three argument strings. -/
def sprintf3 (a b c : List Char) : List Char := a ++ b ++ c

/-- Observable result of one call of `microsandbox_greet`: the returned
pointer (`none` models `NULL`) and the lines written to standard output. -/
structure CallResult where
  ret : Option (List Char)
  stdout : List (List Char)
deriving DecidableEq

/-- Embedding of `microsandbox_greet` from `src/sdk/c/src/microsandbox.c`.
`allocOk = false` models the branch where `malloc` returned `NULL`: the
function returns `NULL` before `sprintf` and `printf` are reached.
Otherwise the message is built by `sprintf` and printed by
`printf("%s\n", message)`. -/
def microsandbox_greet (allocOk : Bool) (name : List Char) : CallResult :=
  if allocOk then
    let message := sprintf3 prefixStr name suffixStr
    { ret := some message, stdout := [message ++ ['\n']] }
  else
    { ret := none, stdout := [] }

end CSdk

namespace CppSdk

/-- Embedding of `microsandbox::greet` from `src/sdk/cpp/src/microsandbox.cpp`:
builds `message = "Hello, " + name + "! Welcome to Microsandbox!"`, emits
`message` and a newline via `std::cout << message << std::endl`, and returns
`message`. First component: returned string; second: stdout lines. -/
def greet (name : List Char) : List Char × List (List Char) :=
  let message := "Hello, ".data ++ name ++ "! Welcome to Microsandbox!".data
  (message, [message ++ ['\n']])

end CppSdk

/-- The suffix literal splits as `"!"` followed by the welcome text. -/
theorem suffix_split :
    "! Welcome to Microsandbox!".data
      = "!".data ++ " Welcome to Microsandbox!".data := by decide

/-- The prefix literal has length 7. -/
theorem prefix_len : "Hello, ".data.length = 7 := by decide

/-- The suffix literal has length 26. -/
theorem suffix_len : "! Welcome to Microsandbox!".data.length = 26 := by decide

/-- C1: for every input string `name`, `greet(name)` returns exactly
`"Hello, " ++ name ++ "! Welcome to Microsandbox!"` — in the C variant on
allocation success and in the C++ variant. -/
theorem greet_exact (name : List Char) :
    (CSdk.microsandbox_greet true name).ret
        = some ("Hello, ".data ++ name ++ "! Welcome to Microsandbox!".data)
      ∧ (CppSdk.greet name).1
        = "Hello, ".data ++ name ++ "! Welcome to Microsandbox!".data :=
  ⟨rfl, rfl⟩

/-- C2: for every input string `name`, the value returned by `greet(name)`
has `"Hello, " ++ name ++ "!"` as a prefix (both variants; C on success). -/
theorem greet_starts_with_hello (name : List Char) :
    (∃ rest, (CppSdk.greet name).1
        = ("Hello, ".data ++ name ++ "!".data) ++ rest)
      ∧ ∃ rest, (CSdk.microsandbox_greet true name).ret
        = some (("Hello, ".data ++ name ++ "!".data) ++ rest) := by
  refine ⟨⟨" Welcome to Microsandbox!".data, ?_⟩,
    ⟨" Welcome to Microsandbox!".data, ?_⟩⟩ <;>
    simp [CppSdk.greet, CSdk.microsandbox_greet, CSdk.sprintf3,
      CSdk.prefixStr, CSdk.suffixStr, suffix_split]

/-- C3: in the C variant, `microsandbox_greet` returns `NULL` if and only if
allocation of the concatenated buffer fails; this is the only failure mode
(the function is total, so no other fault propagates). -/
theorem greet_null_iff_alloc_failure (allocOk : Bool) (name : List Char) :
    (CSdk.microsandbox_greet allocOk name).ret = none ↔ allocOk = false := by
  cases allocOk <;> simp [CSdk.microsandbox_greet]

/-- C4 counterexample: a C-variant call in which allocation fails writes
nothing to standard output, refuting the claim that every call — including
one failing allocation — writes exactly one line. -/
theorem greet_output_once_counterexample :
    (CSdk.microsandbox_greet false "A".data).stdout = []
      ∧ (CSdk.microsandbox_greet false "A".data).stdout.length ≠ 1 := by
  decide

/-- C4 amended: every successful C-variant call and every C++-variant call
writes to standard output exactly once, emitting the single line
`"Hello, " ++ name ++ "! Welcome to Microsandbox!" ++ "\n"`, and has no
other observable effect; a C-variant call in which allocation fails writes
nothing. -/
theorem greet_output_once_on_success (name : List Char) :
    (CSdk.microsandbox_greet true name).stdout
        = [("Hello, ".data ++ name ++ "! Welcome to Microsandbox!".data)
            ++ ['\n']]
      ∧ (CppSdk.greet name).2
        = [("Hello, ".data ++ name ++ "! Welcome to Microsandbox!".data)
            ++ ['\n']]
      ∧ (CSdk.microsandbox_greet false name).stdout = [] :=
  ⟨rfl, rfl, rfl⟩

/-- C5: the C binding and the C++ binding are equivalent — for every input
string `name`, the character sequence the C variant returns on allocation
success equals the string the C++ variant returns. -/
theorem c_cpp_equivalent (name : List Char) :
    (CSdk.microsandbox_greet true name).ret = some (CppSdk.greet name).1 :=
  rfl

/-- C6: `greet` applied to the empty string returns exactly
`"Hello, ! Welcome to Microsandbox!"` (both variants; C on success). -/
theorem greet_empty_string :
    (CSdk.microsandbox_greet true []).ret
        = some "Hello, ! Welcome to Microsandbox!".data
      ∧ (CppSdk.greet []).1 = "Hello, ! Welcome to Microsandbox!".data := by
  constructor <;> decide

/-- C7: `greet` is deterministic in its return value — two successful
C-variant calls with the same `name` (whatever each call's allocation
outcome was) return equal character sequences. -/
theorem greet_deterministic (a1 a2 : Bool) (name m1 m2 : List Char)
    (h1 : (CSdk.microsandbox_greet a1 name).ret = some m1)
    (h2 : (CSdk.microsandbox_greet a2 name).ret = some m2) :
    m1 = m2 := by
  cases a1
  · exact absurd h1 (by simp [CSdk.microsandbox_greet])
  · cases a2
    · exact absurd h2 (by simp [CSdk.microsandbox_greet])
    · exact Option.some.inj (h1.symm.trans h2)

/-- Witness for C7 at `name = "Test"`: both hypotheses hold concretely and
the theorem applies. -/
theorem greet_deterministic_witness :
    "Hello, Test! Welcome to Microsandbox!".data
      = "Hello, Test! Welcome to Microsandbox!".data :=
  greet_deterministic true true "Test".data
    "Hello, Test! Welcome to Microsandbox!".data
    "Hello, Test! Welcome to Microsandbox!".data (by decide) (by decide)

/-- C8: `greet` is total over its input domain — for every character
sequence `name` (no length or content restriction), the C variant succeeds
whenever allocation succeeds and the C++ variant always returns the
greeting; no other error path exists. -/
theorem greet_total (name : List Char) :
    ((CSdk.microsandbox_greet true name).ret).isSome = true
      ∧ (CppSdk.greet name).1
        = "Hello, ".data ++ name ++ "! Welcome to Microsandbox!".data :=
  ⟨rfl, rfl⟩

/-- C9: a C-variant call in which allocation fails is atomic and silent —
it returns `NULL` with no output and no other observable effect, because
the `NULL` check returns before `sprintf` and `printf` are reached. -/
theorem alloc_failure_silent (name : List Char) :
    CSdk.microsandbox_greet false name = { ret := none, stdout := [] } :=
  rfl

/-- C10: in the C variant the buffer size computed before allocation equals
the length of the constructed greeting plus one (for the NUL terminator),
equals `strlen(name) + 34`, and on success the returned string has length
exactly `strlen(name) + 33` — so the `sprintf` write, terminator included,
fits the allocated buffer exactly. -/
theorem buffer_size_exact (name : List Char) :
    CSdk.total_length name
        = (CSdk.sprintf3 CSdk.prefixStr name CSdk.suffixStr).length + 1
      ∧ CSdk.total_length name = CSdk.strlen name + 34
      ∧ ((CSdk.microsandbox_greet true name).ret).map List.length
        = some (CSdk.strlen name + 33) := by
  refine ⟨?_, ?_, ?_⟩ <;>
    simp [CSdk.total_length, CSdk.sprintf3, CSdk.strlen, CSdk.prefixStr,
      CSdk.suffixStr, CSdk.microsandbox_greet, prefix_len, suffix_len] <;>
    omega
